import Mathlib

/-!
# Verification of the cellpy `arbinreader` engine

A shallow embedding of the classification-and-aggregation engine of
`cellpy/readers/arbinreader.py` (step segmentation, step classification,
step aggregation, summary building and dataset merging), together with
theorems settling the specified properties.

Embedding conventions:
* numeric cell values are rationals (`ℚ`); integer-valued columns
  (`Data_Point`, `Cycle_Index`, `Step_Index`) are embedded in `ℚ` as well,
  matching the untyped pandas columns;
* the delta and rate columns, which the source computes by numpy float
  division of pandas-sourced values, take values in `FloatVal`: a finite
  rational, `posInf`/`negInf` (division of a non-zero numerator by zero) or
  `nan` (`0.0 / 0.0`), with IEEE comparison semantics (`NaN` compares
  `False` against everything, `+inf` is above every finite threshold);
* a pandas `NaN` in a plain statistics cell (e.g. the std of a one-sample
  series) is embedded as `none : Option ℚ`, whose comparisons are `False`;
* an operation that raises in Python (`KeyError`, `IndexError`,
  `TypeError`, `max` of an empty sequence) returns `none` at the function
  boundary.
-/

namespace Cellpy

/-- One row of the normalized Arbin raw data table (`dfdata`).  Column names
in the source: `Data_Point`, `Test_Time`, `Step_Time`, `Cycle_Index`,
`Step_Index`, `Current`, `Voltage`, `Charge_Capacity`, `Discharge_Capacity`,
`Charge_Energy`, `Discharge_Energy`, `Internal_Resistance`, `DateTime`. -/
structure RawRow where
  data_point : ℚ
  test_time : ℚ
  step_time : ℚ
  cycle_index : ℚ
  step_index : ℚ
  current : ℚ
  voltage : ℚ
  charge_capacity : ℚ
  discharge_capacity : ℚ
  charge_energy : ℚ
  discharge_energy : ℚ
  internal_resistance : ℚ
  datetime : ℚ
  deriving Repr, DecidableEq

/-- The value of a numpy-float cell produced by a division: a finite
rational, a signed infinity, or `NaN`. -/
inductive FloatVal
  | nan
  | posInf
  | negInf
  | fin (q : ℚ)
  deriving Repr, DecidableEq

/-- `v < b` for a division-result cell against a finite threshold, with
IEEE semantics: `NaN` compares `False`, `-inf` is below and `+inf` above
every finite value. -/
def fltLt (v : FloatVal) (b : ℚ) : Bool :=
  match v with
  | .nan => false
  | .posInf => false
  | .negInf => true
  | .fin x => decide (x < b)

/-- `v > b` for a division-result cell, IEEE semantics. -/
def fltGt (v : FloatVal) (b : ℚ) : Bool :=
  match v with
  | .nan => false
  | .posInf => true
  | .negInf => false
  | .fin x => decide (b < x)

/-- `v == b` for a division-result cell: `NaN` and the infinities compare
`False` against every finite value. -/
def fltEq (v : FloatVal) (b : ℚ) : Bool :=
  match v with
  | .fin x => decide (x = b)
  | _ => false

/-- `.abs()` of a division-result cell. -/
def fltAbs (v : FloatVal) : FloatVal :=
  match v with
  | .nan => .nan
  | .posInf => .posInf
  | .negInf => .posInf
  | .fin x => .fin |x|

/-- IEEE float division of a (possibly non-finite) numerator by a finite
denominator: `x / 0` is `NaN` when `x = 0` and a signed infinity otherwise
(the denominators in the source are `+0.0`, so the sign is the
numerator's). -/
def floatDiv (v : FloatVal) (b : ℚ) : FloatVal :=
  match v with
  | .nan => .nan
  | .posInf => if b < 0 then .negInf else .posInf
  | .negInf => if b < 0 then .posInf else .negInf
  | .fin x =>
    if b = 0 then
      if x = 0 then .nan
      else if 0 < x then .posInf else .negInf
    else .fin (x / b)

/-- `_percentage_change(x0, x1, default_zero)` (arbinreader.py:2271-2284).
The source branches on `x1 == 0.0` (not on the denominator `x0`); in the
other branch it computes `(x1 - x0) * 100 / x0` with no guard, so `x0 = 0`
there divides a non-zero numerator by zero — the values are numpy floats
from pandas, so this yields `±inf` (sign of `(x1 - x0) * 100`, i.e. of
`x1`, the denominator being `+0.0`), not an exception. -/
def percentage_change (x0 x1 : ℚ) (default_zero : Bool) : FloatVal :=
  if x1 = 0 then
    let difference := x1 - x0
    .fin (if difference ≠ 0 ∧ default_zero then 0 else difference)
  else if x0 = 0 then
    (if 0 < x1 then .posInf else .negInf)
  else .fin ((x1 - x0) * 100 / x0)

/-- Sum of a list of rationals (`Series.sum`). -/
def listSum (l : List ℚ) : ℚ := l.foldl (· + ·) 0

/-- `Series.mean()`: `NaN` (`none`) on an empty series. -/
def seriesMean (l : List ℚ) : Option ℚ :=
  if l.length = 0 then none else some (listSum l / (l.length : ℚ))

/-- `Series.std()` (sample standard deviation, `ddof = 1`): the embedding
records the sample *variance*, whose square root the source stores; `ℚ` has
no square root and no claim inspects this column.  `NaN` (`none`) on a
series of fewer than two samples. -/
def seriesVar (l : List ℚ) : Option ℚ :=
  match seriesMean l with
  | none => none
  | some m =>
    if l.length ≤ 1 then none
    else some (listSum (l.map (fun x => (x - m) ^ 2)) / ((l.length : ℚ) - 1))

/-- The per-step statistics computed by `_extract_step_values`
(arbinreader.py:1873-1951): for each of current (`I`), voltage (`V`),
charge capacity (`C`) and discharge capacity (`D`): average, std (variance,
see `seriesVar`), max, min, start, end, delta (a `percentage_change`) and
rate (delta / elapsed step time), plus the first row's internal
resistance. -/
structure StepValues where
  t_delta : ℚ
  I_avr : Option ℚ
  I_std : Option ℚ
  I_max : Option ℚ
  I_min : Option ℚ
  I_start : ℚ
  I_end : ℚ
  I_delta : FloatVal
  I_rate : FloatVal
  V_avr : Option ℚ
  V_std : Option ℚ
  V_max : Option ℚ
  V_min : Option ℚ
  V_start : ℚ
  V_end : ℚ
  V_delta : FloatVal
  V_rate : FloatVal
  C_avr : Option ℚ
  C_std : Option ℚ
  C_max : Option ℚ
  C_min : Option ℚ
  C_start : ℚ
  C_end : ℚ
  C_delta : FloatVal
  C_rate : FloatVal
  D_avr : Option ℚ
  D_std : Option ℚ
  D_max : Option ℚ
  D_min : Option ℚ
  D_start : ℚ
  D_end : ℚ
  D_delta : FloatVal
  D_rate : FloatVal
  IR : ℚ
  deriving Repr, DecidableEq

/-- `_extract_step_values(f)` (arbinreader.py:1873-1951).  `f.iloc[0]` /
`f.iloc[-1]` on an empty window raise `IndexError`, hence `none` on `[]`.
`t_delta = t_end - t_start` ("OBS! will be used as denominator",
line 1893) is used as the rate denominator with **no single-sample
fallback**: for a one-row window it is `0`, every delta is `0`, and every
rate is the float division `0.0 / 0.0`, i.e. `NaN`. -/
def extract_step_values (f : List RawRow) : Option StepValues :=
  match f with
  | [] => none
  | r0 :: rest =>
    let rlast := (r0 :: rest).getLast (List.cons_ne_nil r0 rest)
    let t_delta := rlast.step_time - r0.step_time
    let curr := (r0 :: rest).map RawRow.current
    let volt := (r0 :: rest).map RawRow.voltage
    let chg := (r0 :: rest).map RawRow.charge_capacity
    let dchg := (r0 :: rest).map RawRow.discharge_capacity
    let I_delta := percentage_change r0.current rlast.current true
    let V_delta := percentage_change r0.voltage rlast.voltage true
    let C_delta := percentage_change r0.charge_capacity rlast.charge_capacity true
    let D_delta := percentage_change r0.discharge_capacity rlast.discharge_capacity true
    some
      { t_delta := t_delta
        I_avr := seriesMean curr, I_std := seriesVar curr
        I_max := curr.max?, I_min := curr.min?
        I_start := r0.current, I_end := rlast.current
        I_delta := I_delta, I_rate := floatDiv I_delta t_delta
        V_avr := seriesMean volt, V_std := seriesVar volt
        V_max := volt.max?, V_min := volt.min?
        V_start := r0.voltage, V_end := rlast.voltage
        V_delta := V_delta, V_rate := floatDiv V_delta t_delta
        C_avr := seriesMean chg, C_std := seriesVar chg
        C_max := chg.max?, C_min := chg.min?
        C_start := r0.charge_capacity, C_end := rlast.charge_capacity
        C_delta := C_delta, C_rate := floatDiv C_delta t_delta
        D_avr := seriesMean dchg, D_std := seriesVar dchg
        D_max := dchg.max?, D_min := dchg.min?
        D_start := r0.discharge_capacity, D_end := rlast.discharge_capacity
        D_delta := D_delta, D_rate := floatDiv D_delta t_delta
        IR := r0.internal_resistance }

/-- `a < b` where `a` is a possibly-`NaN` cell: comparisons against `NaN`
are `False` in pandas. -/
def oltQ (a : Option ℚ) (b : ℚ) : Bool :=
  match a with
  | none => false
  | some x => decide (x < b)

/-- `a > b` where `a` is a possibly-`NaN` cell. -/
def ogtQ (a : Option ℚ) (b : ℚ) : Bool :=
  match a with
  | none => false
  | some x => decide (b < x)

/-- `.abs()` of a possibly-`NaN` cell. -/
def oabsQ (a : Option ℚ) : Option ℚ := a.map (fun x => |x|)

/-- `a + b` on possibly-`NaN` cells (`NaN` propagates). -/
def oaddQ (a b : Option ℚ) : Option ℚ :=
  a.bind (fun x => b.map (fun y => x + y))

/-- `current_limit_value_hard = 0.0000000000001` (arbinreader.py:2077). -/
def current_limit_value_hard : ℚ := 1 / 10 ^ 13

/-- `current_limit_value_soft = 0.00001` (arbinreader.py:2078). -/
def current_limit_value_soft : ℚ := 1 / 10 ^ 5

/-- `stable_current_limit_hard = 2.0` (arbinreader.py:2080). -/
def stable_current_limit_hard : ℚ := 2

/-- `stable_current_limit_soft = 4.0` (arbinreader.py:2081). -/
def stable_current_limit_soft : ℚ := 4

/-- `stable_voltage_limit_hard = 2.0` (arbinreader.py:2083). -/
def stable_voltage_limit_hard : ℚ := 2

/-- `stable_voltage_limit_soft = 4.0` (arbinreader.py:2084). -/
def stable_voltage_limit_soft : ℚ := 4

/-- `stable_charge_limit_hard = 2.0` (arbinreader.py:2086). -/
def stable_charge_limit_hard : ℚ := 2

/-- `stable_charge_limit_soft = 5.0` (arbinreader.py:2087). -/
def stable_charge_limit_soft : ℚ := 5

/-- `ir_change_limit = 0.00001` (arbinreader.py:2089). -/
def ir_change_limit : ℚ := 1 / 10 ^ 5

/-- `mask_no_current_hard` (arbinreader.py:2103-2104). -/
def mask_no_current_hard (v : StepValues) : Bool :=
  oltQ (oaddQ (oabsQ v.I_max) (oabsQ v.I_min)) current_limit_value_hard

/-- `mask_no_current_soft` (arbinreader.py:2105-2106, unused by the
assignments). -/
def mask_no_current_soft (v : StepValues) : Bool :=
  oltQ (oaddQ (oabsQ v.I_max) (oabsQ v.I_min)) current_limit_value_soft

/-- `mask_voltage_down` (arbinreader.py:2108). -/
def mask_voltage_down (v : StepValues) : Bool :=
  fltLt v.V_delta (-stable_voltage_limit_hard)

/-- `mask_voltage_up` (arbinreader.py:2109). -/
def mask_voltage_up (v : StepValues) : Bool :=
  fltGt v.V_delta stable_voltage_limit_hard

/-- `mask_voltage_stable` (arbinreader.py:2110). -/
def mask_voltage_stable (v : StepValues) : Bool :=
  fltLt (fltAbs v.V_delta) stable_voltage_limit_hard

/-- `mask_current_down` (arbinreader.py:2112). -/
def mask_current_down (v : StepValues) : Bool :=
  fltLt v.I_delta (-stable_current_limit_soft)

/-- `mask_current_up` (arbinreader.py:2113, unused by the assignments). -/
def mask_current_up (v : StepValues) : Bool :=
  fltGt v.I_delta stable_current_limit_soft

/-- `mask_current_negative` (arbinreader.py:2114). -/
def mask_current_negative (v : StepValues) : Bool :=
  oltQ v.I_avr (-current_limit_value_hard)

/-- `mask_current_positive` (arbinreader.py:2115). -/
def mask_current_positive (v : StepValues) : Bool :=
  ogtQ v.I_avr current_limit_value_hard

/-- `mask_galvanostatic` (arbinreader.py:2116, unused by the
assignments). -/
def mask_galvanostatic (v : StepValues) : Bool :=
  fltLt (fltAbs v.I_delta) stable_current_limit_soft

/-- `mask_charge_changed` (arbinreader.py:2118). -/
def mask_charge_changed (v : StepValues) : Bool :=
  fltGt (fltAbs v.C_delta) stable_charge_limit_hard

/-- `mask_discharge_changed` (arbinreader.py:2119). -/
def mask_discharge_changed (v : StepValues) : Bool :=
  fltGt (fltAbs v.D_delta) stable_charge_limit_hard

/-- `mask_no_change` (arbinreader.py:2123-2124): all four deltas exactly
zero. -/
def mask_no_change (v : StepValues) : Bool :=
  fltEq v.V_delta 0 && fltEq v.I_delta 0 && fltEq v.C_delta 0 && fltEq v.D_delta 0

/-- The `type` column assignments of `create_step_table`
(arbinreader.py:2132-2148), in source order.  Each `df_steps.loc[mask, ...]
= t` overwrites whatever an earlier assignment stored, so the *last*
matching assignment determines the final `type`; a step matching no mask
keeps the `NaN` placeholder of the freshly created frame (`none`). -/
def classify_step (v : StepValues) : Option String :=
  let t : Option String := none
  let t := if mask_no_current_hard v && mask_voltage_up v then some "ocvrlx_up" else t
  let t := if mask_no_current_hard v && mask_voltage_down v then some "ocvrlx_down" else t
  let t := if mask_discharge_changed v && mask_current_negative v then some "discharge" else t
  let t := if mask_charge_changed v && mask_current_positive v then some "charge" else t
  let t := if mask_voltage_stable v && mask_current_negative v && mask_current_down v then some "cv_discharge" else t
  let t := if mask_voltage_stable v && mask_current_positive v && mask_current_down v then some "cv_charge" else t
  let t := if mask_no_change v then some "ir" else t
  t

/-- The classification rules with the source's masks, listed in the spec's
order: OCV (1), discharge/charge (2), constant-voltage variants (3),
no-change `ir` (4). -/
def classification_rules : List ((StepValues → Bool) × String) :=
  [ (fun v => mask_no_current_hard v && mask_voltage_up v, "ocvrlx_up"),
    (fun v => mask_no_current_hard v && mask_voltage_down v, "ocvrlx_down"),
    (fun v => mask_discharge_changed v && mask_current_negative v, "discharge"),
    (fun v => mask_charge_changed v && mask_current_positive v, "charge"),
    (fun v => mask_voltage_stable v && mask_current_negative v && mask_current_down v, "cv_discharge"),
    (fun v => mask_voltage_stable v && mask_current_positive v && mask_current_down v, "cv_charge"),
    (fun v => mask_no_change v, "ir") ]

/-- Formalisation of the spec's words for the classification decision:
"ordered, first match wins". -/
def spec_first_match_type (v : StepValues) : Option String :=
  (classification_rules.find? (fun p => p.1 v)).map Prod.snd

/-- The latest matching rule in the spec's order (the rule the overwriting
assignments actually implement). -/
def last_match_type (v : StepValues) : Option String :=
  (classification_rules.reverse.find? (fun p => p.1 v)).map Prod.snd

/-- `pandas.unique` / `Series.unique()`: the distinct values of a column in
order of first appearance (helper, with an accumulator of already seen
values). -/
def uniqueAux {α : Type} [DecidableEq α] (seen : List α) : List α → List α
  | [] => []
  | x :: xs => if x ∈ seen then uniqueAux seen xs else x :: uniqueAux (x :: seen) xs

/-- `pandas.unique` / `Series.unique()`: distinct values in order of first
appearance. -/
def uniqueKeep {α : Type} [DecidableEq α] (l : List α) : List α := uniqueAux [] l

/-- The `(cycle, step)` pairs enumerated by `create_step_table`
(arbinreader.py:2036-2060): for each cycle of
`df[cycle_index_header].unique()`, the steps of
`df_cycle[step_index_header].unique()`. -/
def step_pairs (rows : List RawRow) : List (ℚ × ℚ) :=
  (uniqueKeep (rows.map RawRow.cycle_index)).flatMap fun c =>
    (uniqueKeep ((rows.filter (fun r => decide (r.cycle_index = c))).map RawRow.step_index)).map
      fun s => (c, s)

/-- `Series.pct_change()` continued after the first element: each entry is
`(x_i - x_prev) / x_prev`; a zero previous value is a float division by
zero (`inf`/`NaN` under numpy semantics), embedded as `none`. -/
def pct_change_from (prev : ℚ) : List ℚ → List (Option ℚ)
  | [] => []
  | x :: xs => (if prev = 0 then none else some ((x - prev) / prev)) :: pct_change_from x xs

/-- `Series.pct_change()` (used at arbinreader.py:2023 on the
`Internal_Resistance` column): first entry `NaN`, then the relative change
from the previous entry. -/
def pct_change_series : List ℚ → List (Option ℚ)
  | [] => []
  | x :: xs => none :: pct_change_from x xs

/-- One row of the step table built by `create_step_table`
(arbinreader.py:1953-2169).  `values` holds the aggregate columns filled by
`df_steps.iloc[counter, 2:-2] = result`; `ir_pct` is the `IR_pct_change`
column (the raw table's pct-change series at the window's first row);
`type` is the classification column (`none` models the `NaN` placeholder of
the freshly created frame); `info` is declared as a column but never
assigned anywhere in `create_step_table`, so it is `none` in every row. -/
structure StepRow where
  cycle : ℚ
  step : ℚ
  values : Option StepValues
  ir_pct : Option ℚ
  type : Option String
  info : Option String
  deriving Repr, DecidableEq

/-- The rows of the step table produced by `create_step_table`
(arbinreader.py:2021-2168): one row per enumerated `(cycle, step)` pair,
with the aggregates of `_extract_step_values` and the `type` column written
by the mask assignments. -/
def step_table_rows (rows : List RawRow) : List StepRow :=
  let pct := pct_change_series (rows.map RawRow.internal_resistance)
  let paired := rows.zip pct
  (step_pairs rows).map fun p =>
    let w := paired.filter (fun rp => decide (rp.1.cycle_index = p.1) && decide (rp.1.step_index = p.2))
    let v := extract_step_values (w.map Prod.fst)
    { cycle := p.1, step := p.2, values := v,
      ir_pct := (w.head?).bind Prod.snd,
      type := v.bind classify_step,
      info := none }

/-- Running sums (`Series.cumsum()`), with an accumulator. -/
def cumsumAux (acc : ℚ) : List ℚ → List ℚ
  | [] => []
  | x :: xs => (acc + x) :: cumsumAux (acc + x) xs

/-- Running sums (`Series.cumsum()`). -/
def cumsum (l : List ℚ) : List ℚ := cumsumAux 0 l

/-- The capacity-loss column loops of `_make_summary`
(arbinreader.py:4595-4618): entry `0` at index `0`, and
`value[j-1] - value[j]` at every later index. -/
def lossList : List ℚ → List ℚ
  | [] => []
  | x :: xs => 0 :: List.zipWith (fun a b => a - b) (x :: xs) xs

/-- The summary table (`dfsummary`) produced by `_make_summary`
(arbinreader.py:4485-4846), as columns aligned with its selected raw rows.
`rows` are the raw columns of `dfdata[summary_requirment]`; `ir_pct` is the
`IR_pct_change` column, present exactly when the raw table carried that
column at selection time; the core derived columns are always present; the
`Option` columns are present only when the corresponding option was
requested.  A `dataset.dfsummary` freshly loaded from the instrument's stat
table has `rows` only (all derived columns empty/absent). -/
structure DfSummary where
  rows : List RawRow
  ir_pct : Option (List (Option ℚ))
  discharge_cap : List ℚ
  charge_cap : List ℚ
  cum_charge_cap : List ℚ
  coul_eff : List (Option ℚ)
  coul_diff : List ℚ
  cum_coul_diff : List ℚ
  discharge_loss : List ℚ
  charge_loss : List ℚ
  cum_discharge_loss : List ℚ
  cum_charge_loss : List ℚ
  date_col : Option (List ℚ)
  endv_discharge : Option (List ℚ)
  endv_charge : Option (List ℚ)
  ir_discharge : Option (List ℚ)
  ir_charge : Option (List ℚ)
  ocv1_min : Option (List ℚ)
  ocv1_max : Option (List ℚ)
  ocv2_min : Option (List ℚ)
  ocv2_max : Option (List ℚ)
  deriving Repr, DecidableEq

/-- A `dataset` instance (arbinreader.py:195-236), restricted to the fields
the engine reads or writes.  `ir_pct_col` is the `IR_pct_change` column
that `create_step_table` adds to `dfdata` in place (`none` while the column
is absent); `start_datetime` is the Excel serial date (`None` when
missing); `dfsummary` is `none` while no summary table exists. -/
structure TestData where
  dfdata : List RawRow
  ir_pct_col : Option (List (Option ℚ))
  start_datetime : Option ℚ
  step_table : List StepRow
  step_table_made : Bool
  dfsummary : Option DfSummary
  dfsummary_made : Bool
  mass : ℚ
  no_cycles : ℚ
  merged : Bool
  deriving Repr, DecidableEq

/-- `create_step_table(test_number)` (arbinreader.py:1953-2169) as a state
transformation: line 2023 adds the `IR_pct_change` column to the *raw*
table in place (`df[step_table_txt_ir_change] = df[ir].pct_change()`), then
the step table is built and `step_table_made` is set. -/
def create_step_table_state (t : TestData) : TestData :=
  { t with
    ir_pct_col := some (pct_change_series (t.dfdata.map RawRow.internal_resistance)),
    step_table := step_table_rows t.dfdata,
    step_table_made := true }

/-- `diff_time` of `_append` (arbinreader.py:1609-1612):
`xldate_as_datetime(start_2) - xldate_as_datetime(start_1)` in seconds.
The Excel serial dates are day counts, so the difference is
`(x2 - x1) * 86400` seconds. -/
def xldate_diff_seconds (x1 x2 : ℚ) : ℚ := (x2 - x1) * 86400

/-- Column lookup on the raw table (`t.dfdata[name]`), cells being
possibly-`NaN`.  Only the actual raw-table column names resolve (plus
`IR_pct_change` once `create_step_table` has added it); any other name is a
pandas `KeyError`, embedded as `none`. -/
def raw_column (t : TestData) (name : String) : Option (List (Option ℚ)) :=
  if name = "Data_Point" then some (t.dfdata.map (fun r => some r.data_point))
  else if name = "Test_Time" then some (t.dfdata.map (fun r => some r.test_time))
  else if name = "Step_Time" then some (t.dfdata.map (fun r => some r.step_time))
  else if name = "Cycle_Index" then some (t.dfdata.map (fun r => some r.cycle_index))
  else if name = "Step_Index" then some (t.dfdata.map (fun r => some r.step_index))
  else if name = "Current" then some (t.dfdata.map (fun r => some r.current))
  else if name = "Voltage" then some (t.dfdata.map (fun r => some r.voltage))
  else if name = "Charge_Capacity" then some (t.dfdata.map (fun r => some r.charge_capacity))
  else if name = "Discharge_Capacity" then some (t.dfdata.map (fun r => some r.discharge_capacity))
  else if name = "Charge_Energy" then some (t.dfdata.map (fun r => some r.charge_energy))
  else if name = "Discharge_Energy" then some (t.dfdata.map (fun r => some r.discharge_energy))
  else if name = "Internal_Resistance" then some (t.dfdata.map (fun r => some r.internal_resistance))
  else if name = "DateTime" then some (t.dfdata.map (fun r => some r.datetime))
  else if name = "IR_pct_change" then t.ir_pct_col
  else none

/-- Concatenation of two optional summary columns under `pd.concat`: a
column present on only one side is `NaN`-filled on the other
(arbinreader.py:1663). -/
def optColConcat (a b : Option (List (Option ℚ))) (la lb : ℕ) :
    Option (List (Option ℚ)) :=
  match a, b with
  | none, none => none
  | some xa, none => some (xa ++ List.replicate lb none)
  | none, some xb => some (List.replicate la none ++ xb)
  | some xa, some xb => some (xa ++ xb)

/-- `pd.concat([t1.dfsummary, t2.dfsummary], ignore_index=True)`
(arbinreader.py:1663), field-wise; mismatched optional columns are
`NaN`-padded as in pandas. -/
def dfSummaryConcat (s1 s2 : DfSummary) : DfSummary :=
  let l1 := s1.rows.length
  let l2 := s2.rows.length
  { rows := s1.rows ++ s2.rows,
    ir_pct := optColConcat s1.ir_pct s2.ir_pct l1 l2,
    discharge_cap := s1.discharge_cap ++ s2.discharge_cap,
    charge_cap := s1.charge_cap ++ s2.charge_cap,
    cum_charge_cap := s1.cum_charge_cap ++ s2.cum_charge_cap,
    coul_eff := s1.coul_eff ++ s2.coul_eff,
    coul_diff := s1.coul_diff ++ s2.coul_diff,
    cum_coul_diff := s1.cum_coul_diff ++ s2.cum_coul_diff,
    discharge_loss := s1.discharge_loss ++ s2.discharge_loss,
    charge_loss := s1.charge_loss ++ s2.charge_loss,
    cum_discharge_loss := s1.cum_discharge_loss ++ s2.cum_discharge_loss,
    cum_charge_loss := s1.cum_charge_loss ++ s2.cum_charge_loss,
    date_col := (optColConcat (s1.date_col.map (List.map some)) (s2.date_col.map (List.map some)) l1 l2).map (List.map (fun c => c.getD 0)),
    endv_discharge := (optColConcat (s1.endv_discharge.map (List.map some)) (s2.endv_discharge.map (List.map some)) l1 l2).map (List.map (fun c => c.getD 0)),
    endv_charge := (optColConcat (s1.endv_charge.map (List.map some)) (s2.endv_charge.map (List.map some)) l1 l2).map (List.map (fun c => c.getD 0)),
    ir_discharge := (optColConcat (s1.ir_discharge.map (List.map some)) (s2.ir_discharge.map (List.map some)) l1 l2).map (List.map (fun c => c.getD 0)),
    ir_charge := (optColConcat (s1.ir_charge.map (List.map some)) (s2.ir_charge.map (List.map some)) l1 l2).map (List.map (fun c => c.getD 0)),
    ocv1_min := (optColConcat (s1.ocv1_min.map (List.map some)) (s2.ocv1_min.map (List.map some)) l1 l2).map (List.map (fun c => c.getD 0)),
    ocv1_max := (optColConcat (s1.ocv1_max.map (List.map some)) (s2.ocv1_max.map (List.map some)) l1 l2).map (List.map (fun c => c.getD 0)),
    ocv2_min := (optColConcat (s1.ocv2_min.map (List.map some)) (s2.ocv2_min.map (List.map some)) l1 l2).map (List.map (fun c => c.getD 0)),
    ocv2_max := (optColConcat (s1.ocv2_max.map (List.map some)) (s2.ocv2_max.map (List.map some)) l1 l2).map (List.map (fun c => c.getD 0)) }

/-- `_append(t1, t2, merge_summary, merge_step_table)`
(arbinreader.py:1603-1698).  Failure (`none`) captures the raised
exceptions: a missing start datetime, `max` over an empty raw table,
a `None` summary reaching the summary-merge branch (`TypeError`), and —
when both step tables are built — the lookup
`t2.dfdata[self.step_table_txt_cycle]` of the non-existent raw-table
column `"cycle"` (line 1671, `KeyError`).  As in the source, the locally
computed `dfsummary_made`/`step_table_made` values are never stored on the
result, which keeps `t1`'s flags. -/
def appendTests (merge_summary merge_step_table : Bool) (t1 t2 : TestData) :
    Option TestData :=
  match t1.start_datetime, t2.start_datetime with
  | some x1, some x2 =>
    let diff_time := xldate_diff_seconds x1 x2
    match (t1.dfdata.map RawRow.data_point).max?, (t1.dfdata.map RawRow.cycle_index).max? with
    | some last_data_point, some last_cycle =>
      let t2rows := t2.dfdata.map fun r =>
        { r with
          data_point := r.data_point + last_data_point,
          cycle_index := r.cycle_index + last_cycle,
          test_time := r.test_time + diff_time }
      let dfdata2 := t1.dfdata ++ t2rows
      -- `dfsummary_made` / `step_table_made` are computed here in the
      -- source (lines 1629-1638) but never assigned to the result.
      let step_table_made := t1.step_table_made && t2.step_table_made
      let sumRes : Option (Option DfSummary) :=
        if merge_summary then
          match t1.dfsummary, t2.dfsummary with
          | some s1, some s2 =>
            -- the "(self-made) summary exists" path: re-base cycle index
            -- (by `max(t1.dfsummary[cycle_index])`, line 1655) and test
            -- time of `t2`'s summary, then concatenate
            match (s1.rows.map RawRow.cycle_index).max? with
            | none => none
            | some last_cycle_sum =>
              let s2r := { s2 with rows := s2.rows.map fun r =>
                { r with
                  cycle_index := r.cycle_index + last_cycle_sum,
                  test_time := r.test_time + diff_time } }
              some (some (dfSummaryConcat s1 s2r))
          | none, some s2 =>
            -- not "self-made": `t2.dfsummary[data_point]` is re-based by
            -- `last_data_point` (line 1662) and `pd.concat` silently drops
            -- the missing `t1` frame
            some (some { s2 with rows := s2.rows.map fun r =>
              { r with data_point := r.data_point + last_data_point } })
          | _, none =>
            -- `t2.dfsummary` is `None`: line 1662 subscripts `None`
            -- (`TypeError`)
            none
        else some t1.dfsummary
      let stepRes : Option (List StepRow) :=
        if merge_step_table then
          if step_table_made then
            match raw_column t2 "cycle" with
            | none => none
            | some col =>
              -- unreachable: the raw table has no "cycle" column
              some (t1.step_table ++ (t2.step_table.zip col).map fun p =>
                { p.1 with cycle := (p.2.getD 0) + last_cycle })
          else
            -- "could not merge step tables (non-existing)": keep `t1`'s
            some t1.step_table
        else some t1.step_table
      match sumRes, stepRes, (dfdata2.map RawRow.cycle_index).max? with
      | some sumv, some stepv, some nc =>
        some { t1 with
          dfdata := dfdata2,
          dfsummary := sumv,
          step_table := stepv,
          no_cycles := nc,
          merged := true }
      | _, _, _ => none
    | _, _ => none
  | _, _ => none

/-- `self.list_of_step_types` (arbinreader.py:341-345). -/
def list_of_step_types : List String :=
  ["charge", "discharge", "cv_charge", "cv_discharge", "charge_cv",
   "discharge_cv", "ocvrlx_up", "ocvrlx_down", "ir", "rest", "not_known"]

/-- Step-type resolution of `get_step_numbers` (arbinreader.py:1804-1837):
a core step type stands for itself, the helper types `ocv` and
`charge_discharge` expand, anything else is invalid (`return None`); with
`allctypes`, `charge`/`discharge` additionally pull in their `_cv`/`cv_`
variants (appended after the originals). -/
def get_step_numbers_steptypes (steptype : String) (allctypes : Bool) :
    Option (List String) :=
  let base : Option (List String) :=
    if steptype ∈ list_of_step_types then some [steptype]
    else if steptype = "ocv" then some ["ocvrlx_up", "ocvrlx_down"]
    else if steptype = "charge_discharge" then some ["charge", "discharge"]
    else none
  base.map fun sts =>
    if allctypes then
      sts ++ sts.flatMap fun st =>
        if st = "charge" ∨ st = "discharge" then [st ++ "_cv", "cv_" ++ st]
        else []
    else sts

/-- The dict built by `get_step_numbers` (arbinreader.py:1859-1871): for
each queried cycle, the `step` entries of the step-table rows whose `type`
is one of the requested types and whose `cycle` matches; an empty result is
replaced by the sentinel list `[0]`. -/
def get_step_numbers_dict (st : List StepRow) (steptypes : List String)
    (cycle_numbers : List ℚ) : List (ℚ × List ℚ) :=
  cycle_numbers.map fun c =>
    let steplist := steptypes.flatMap fun s =>
      (st.filter (fun row => decide (row.type = some s) && decide (row.cycle = c))).map StepRow.step
    (c, if steplist = [] then [0] else steplist)

/-- `get_cycle_numbers` (arbinreader.py:3984-3998): the unique cycle
indices of the raw table. -/
def get_cycle_numbers (dfdata : List RawRow) : List ℚ :=
  uniqueKeep (dfdata.map RawRow.cycle_index)

/-- `get_step_numbers(steptype, allctypes, pdtype=False, cycle_number=None)`
(arbinreader.py:1776-1871) including its state effect: if the step table is
not yet made, it is created on the spot when `force_step_table_creation`
is set (line 1792-1796; creating it mutates the raw table, see
`create_step_table_state`), otherwise the call returns `None`. -/
def get_step_numbers_state (force : Bool) (steptype : String)
    (allctypes : Bool) (t : TestData) :
    Option (TestData × List (ℚ × List ℚ)) :=
  let t1opt : Option TestData :=
    if t.step_table_made then some t
    else if force then some (create_step_table_state t) else none
  match t1opt, get_step_numbers_steptypes steptype allctypes with
  | some t1, some sts =>
    some (t1, get_step_numbers_dict t1.step_table sts (get_cycle_numbers t1.dfdata))
  | _, _ => none

/-- A rational that is a non-negative integer, as a `ℕ` (used where the
source feeds a cycle count to `range`). -/
def ratToNat? (q : ℚ) : Option ℕ :=
  if q.den = 1 ∧ 0 ≤ q.num then some q.num.toNat else none

/-- `_select_last(dfdata)` (arbinreader.py:4361-4381): the data points of
the last row of each cycle `1 .. max(cycle)`; `max` over an absent cycle's
empty selection raises, hence `none`. -/
def select_last_points (dfdata : List RawRow) : Option (List ℚ) :=
  match (dfdata.map RawRow.cycle_index).max? with
  | none => none
  | some mx =>
    match ratToNat? mx with
    | none => none
    | some n =>
      (List.range n).mapM fun j =>
        ((dfdata.filter (fun r => decide (r.cycle_index = (j : ℚ) + 1))).map RawRow.data_point).max?

/-- The options/configuration consumed by `_make_summary`
(arbinreader.py:4485-4499): the keyword options, the instance flags
`force_step_table_creation` (arbinreader.py:347, default `True`) and
`cycle_mode == 'anode'` (arbinreader.py:340). -/
structure SummaryConfig where
  find_ocv : Bool
  find_ir : Bool
  find_end_voltage : Bool
  convert_date : Bool
  use_arbin_stat_file : Bool
  ensure_step_table : Bool
  force_step_table_creation : Bool
  cycle_mode_anode : Bool
  deriving Repr, DecidableEq

/-- The row-selection mask of `_make_summary` (arbinreader.py:4528-4533):
with `use_arbin_stat_file`, the raw rows whose `Data_Point` occurs in the
current summary (`None` summary: `TypeError`); otherwise `_select_last`. -/
def summary_mask (cfg : SummaryConfig) (t : TestData) :
    Option (RawRow → Bool) :=
  if cfg.use_arbin_stat_file then
    match t.dfsummary with
    | none => none
    | some s => some (fun r => decide (r.data_point ∈ s.rows.map RawRow.data_point))
  else
    (select_last_points t.dfdata).map fun pts =>
      fun r => decide (r.data_point ∈ pts)

/-- The end-voltage lookup of `_make_summary` (arbinreader.py:4731-4759)
for one summary row: the steps for the row's cycle (`KeyError` when
absent), `step[-1]` tested for truthiness (the sentinel `0` yields end
voltage `0`), otherwise the last logged voltage of that step (`IndexError`
on an empty selection).  `first` switches to the first logged value of
`step[0]`, as in the internal-resistance block (arbinreader.py:4799-4824),
which reads `Internal_Resistance` instead. -/
def step_lookup_value (dfdata : List RawRow) (stepsDict : List (ℚ × List ℚ))
    (first : Bool) (field : RawRow → ℚ) (c : ℚ) : Option ℚ :=
  match stepsDict.lookup c with
  | none => none
  | some steps =>
    match (if first then steps.head? else steps.getLast?) with
    | none => none
    | some sv =>
      if sv = 0 then some 0
      else
        let vals := (dfdata.filter (fun r => decide (r.cycle_index = c) && decide (r.step_index = sv))).map field
        if first then vals.head? else vals.getLast?

/-- The step windows collected by `_get_ocv` (arbinreader.py:3879-3899):
for each `(cycle, steps)` of the step-number dict, `_select_step`'s
selection of the raw rows; empty selections (in particular those of the
sentinel step `0`) are dropped. -/
def ocv_windows (dfdata : List RawRow) (stepsDict : List (ℚ × List ℚ)) :
    List (List RawRow) :=
  (stepsDict.flatMap fun p =>
    p.2.map fun s =>
      dfdata.filter (fun r => decide (r.cycle_index = p.1) && decide (r.step_index = s))).filter
    (fun w => decide (w ≠ []))

/-- The OCV column assignment of `_make_summary` (arbinreader.py:4656-4679):
starting from an all-zeros column aligned with the summary rows, each OCV
window writes its extreme voltage into the positions whose summary cycle
matches the window's first-row cycle. -/
def assign_ocv_col (selRows : List RawRow) (ws : List (List RawRow))
    (useMin : Bool) : List ℚ :=
  ws.foldl
    (fun col w =>
      match w.head? with
      | none => col
      | some r0 =>
        let v := if useMin then ((w.map RawRow.voltage).min?).getD 0
                 else ((w.map RawRow.voltage).max?).getD 0
        (selRows.zip col).map fun p =>
          if p.1.cycle_index = r0.cycle_index then v else p.2)
    (selRows.map fun _ => 0)

/-- The pure part of `_make_summary` (arbinreader.py:4528-4845): all
summary columns as functions of the raw table, the step table, the
selected rows, the carried `IR_pct_change` column and the options.
Failures of the internal lookups (`KeyError`/`IndexError`) give `none`. -/
def build_dfsummary (cfg : SummaryConfig) (mass : ℚ) (dfdata : List RawRow)
    (stepTable : List StepRow) (selRows : List RawRow)
    (carried : Option (List (Option ℚ))) : Option DfSummary :=
  let discharge_cap := selRows.map fun r => r.discharge_capacity * 1000000 / mass
  let charge_cap := selRows.map fun r => r.charge_capacity * 1000000 / mass
  let coul_eff := selRows.map fun r =>
    if r.discharge_capacity = 0 then none
    else some (100 * r.charge_capacity / r.discharge_capacity)
  let coul_diff := List.zipWith (fun a b => a - b) charge_cap discharge_cap
  let cycles := get_cycle_numbers dfdata
  let ocvCols : Option (Option (List ℚ × List ℚ) × Option (List ℚ × List ℚ)) :=
    if cfg.find_ocv then
      let ocv1_type := if cfg.cycle_mode_anode then "ocvrlx_up" else "ocvrlx_down"
      let ocv2_type := if cfg.cycle_mode_anode then "ocvrlx_down" else "ocvrlx_up"
      match get_step_numbers_steptypes ocv1_type false, get_step_numbers_steptypes ocv2_type false with
      | some sts1, some sts2 =>
        let ws1 := ocv_windows dfdata (get_step_numbers_dict stepTable sts1 cycles)
        let ws2 := ocv_windows dfdata (get_step_numbers_dict stepTable sts2 cycles)
        some (some (assign_ocv_col selRows ws1 true, assign_ocv_col selRows ws1 false),
              some (assign_ocv_col selRows ws2 true, assign_ocv_col selRows ws2 false))
      | _, _ => none
    else some (none, none)
  let endvCols : Option (Option (List ℚ × List ℚ)) :=
    if cfg.find_end_voltage then
      match get_step_numbers_steptypes "discharge" false, get_step_numbers_steptypes "charge" false with
      | some dsts, some csts =>
        let ddict := get_step_numbers_dict stepTable dsts cycles
        let cdict := get_step_numbers_dict stepTable csts cycles
        match selRows.mapM (fun row => step_lookup_value dfdata ddict false RawRow.voltage row.cycle_index),
              selRows.mapM (fun row => step_lookup_value dfdata cdict false RawRow.voltage row.cycle_index) with
        | some dcol, some ccol => some (some (dcol, ccol))
        | _, _ => none
      | _, _ => none
    else some none
  let irCols : Option (Option (List ℚ × List ℚ)) :=
    if cfg.find_ir then
      match get_step_numbers_steptypes "discharge" false, get_step_numbers_steptypes "charge" false with
      | some dsts, some csts =>
        let ddict := get_step_numbers_dict stepTable dsts cycles
        let cdict := get_step_numbers_dict stepTable csts cycles
        match selRows.mapM (fun row => step_lookup_value dfdata ddict true RawRow.internal_resistance row.cycle_index),
              selRows.mapM (fun row => step_lookup_value dfdata cdict true RawRow.internal_resistance row.cycle_index) with
        | some dcol, some ccol => some (some (dcol, ccol))
        | _, _ => none
      | _, _ => none
    else some none
  match ocvCols, endvCols, irCols with
  | some (ocv1, ocv2), some endv, some ir =>
    some
      { rows := selRows,
        ir_pct := carried,
        discharge_cap := discharge_cap,
        charge_cap := charge_cap,
        cum_charge_cap := cumsum charge_cap,
        coul_eff := coul_eff,
        coul_diff := coul_diff,
        cum_coul_diff := cumsum coul_diff,
        discharge_loss := lossList discharge_cap,
        charge_loss := lossList charge_cap,
        cum_discharge_loss := cumsum (lossList discharge_cap),
        cum_charge_loss := cumsum (lossList charge_cap),
        date_col := if cfg.convert_date then some (selRows.map RawRow.datetime) else none,
        endv_discharge := endv.map Prod.fst,
        endv_charge := endv.map Prod.snd,
        ir_discharge := ir.map Prod.fst,
        ir_charge := ir.map Prod.snd,
        ocv1_min := ocv1.map Prod.fst,
        ocv1_max := ocv1.map Prod.snd,
        ocv2_min := ocv2.map Prod.fst,
        ocv2_max := ocv2.map Prod.snd }
  | _, _, _ => none

/-- `_make_summary(test_number, mass, ...)` (arbinreader.py:4485-4846) as a
state transformation.  The order of effects follows the source: the mass
default (`if not mass: mass = test.mass`), the `ensure_step_table`
creation, the row selection `dfdata[summary_requirment]` (which copies the
raw columns — including `IR_pct_change` exactly if the raw table carries it
*at this point*), then the option blocks whose `get_step_numbers` calls
force-create a missing step table (mutating the raw table *after* the
selection), and finally the assignment of `dfsummary`. -/
def make_summary_state (cfg : SummaryConfig) (mass_in : Option ℚ)
    (t : TestData) : Option TestData :=
  let mass := match mass_in with
              | none => t.mass
              | some m => if m = 0 then t.mass else m
  let tA := if cfg.ensure_step_table && !t.step_table_made then create_step_table_state t else t
  match summary_mask cfg tA with
  | none => none
  | some mask =>
    let selRows := tA.dfdata.filter mask
    let carried := tA.ir_pct_col.map fun col =>
      ((tA.dfdata.zip col).filter (fun rp => mask rp.1)).map Prod.snd
    let tBopt : Option TestData :=
      if (cfg.find_ocv || cfg.find_end_voltage || cfg.find_ir) && !tA.step_table_made then
        (if cfg.force_step_table_creation then some (create_step_table_state tA) else none)
      else some tA
    match tBopt with
    | none => none
    | some tB =>
      match build_dfsummary cfg mass tB.dfdata tB.step_table selRows carried with
      | none => none
      | some s => some { tB with dfsummary := some s, dfsummary_made := true }

/-- The summary table of a dataset as loaded from the instrument's stat
file (`dataset.dfsummary` after `makeDataFrame`, arbinreader.py:290-292):
raw columns only, no derived columns. -/
def instrument_summary (rows : List RawRow) : DfSummary :=
  { rows := rows, ir_pct := none,
    discharge_cap := [], charge_cap := [], cum_charge_cap := [],
    coul_eff := [], coul_diff := [], cum_coul_diff := [],
    discharge_loss := [], charge_loss := [],
    cum_discharge_loss := [], cum_charge_loss := [],
    date_col := none, endv_discharge := none, endv_charge := none,
    ir_discharge := none, ir_charge := none,
    ocv1_min := none, ocv1_max := none, ocv2_min := none, ocv2_max := none }

/-- A raw row with every column zero (base value for concrete test
fixtures). -/
def zeroRow : RawRow :=
  { data_point := 0, test_time := 0, step_time := 0, cycle_index := 0,
    step_index := 0, current := 0, voltage := 0, charge_capacity := 0,
    discharge_capacity := 0, charge_energy := 0, discharge_energy := 0,
    internal_resistance := 0, datetime := 0 }

/-- `no_rule_matches v`: none of the seven classification-mask conditions
holds for `v`. -/
def no_rule_matches (v : StepValues) : Bool :=
  classification_rules.all (fun p => !p.1 v)

/-- C2 fixture: a single-row step window. -/
def c2row : RawRow :=
  { zeroRow with
    data_point := 1, test_time := 100, step_time := 30,
    cycle_index := 1, step_index := 2, current := 1, voltage := 4,
    charge_capacity := 1, internal_resistance := 5 }

/-- C3 fixture, first row of a two-row step window: a discharging step
(current `-2 A`, discharge capacity `1 Ah`, voltage `4 V`). -/
def c3row1 : RawRow :=
  { zeroRow with
    data_point := 1, step_time := 0, cycle_index := 1,
    step_index := 2, current := -2, voltage := 4, charge_capacity := 1,
    discharge_capacity := 1 }

/-- C3 fixture, second row: current tapered to `-1 A` (current delta
`-50%`), discharge capacity doubled (delta `+100%`), voltage drifted to
`4.04 V` (delta `+1%`, "stable"). -/
def c3row2 : RawRow :=
  { zeroRow with
    data_point := 2, step_time := 10, cycle_index := 1,
    step_index := 2, current := -1, voltage := 101 / 25,
    charge_capacity := 1, discharge_capacity := 2 }

/-- C4 fixture: a two-row step whose deltas match none of the
classification rules (current constant positive, voltage drifting `+1%`,
charge capacity `+1%`, discharge capacity constant). -/
def c4rows : List RawRow :=
  [ { zeroRow with
      data_point := 1, step_time := 0, cycle_index := 1,
      step_index := 2, current := 1, voltage := 4, charge_capacity := 1 },
    { zeroRow with
      data_point := 2, step_time := 10, cycle_index := 1,
      step_index := 2, current := 1, voltage := 101 / 25,
      charge_capacity := 101 / 100 } ]

/-- C6 fixture: dataset A's first raw row. -/
def c6rowA1 : RawRow :=
  { zeroRow with
    data_point := 99, cycle_index := 4, step_index := 1, test_time := 50 }

/-- C6 fixture: dataset A's last raw row (`data_point = 100`,
`cycle_index = 5`). -/
def c6rowA2 : RawRow :=
  { zeroRow with
    data_point := 100, cycle_index := 5, step_index := 2, test_time := 60 }

/-- C6 fixture: dataset B's first raw row (`data_point = 1`,
`cycle_index = 1`). -/
def c6rowB1 : RawRow :=
  { zeroRow with
    data_point := 1, cycle_index := 1, step_index := 1, voltage := 3 }

/-- C6 fixture: dataset A, starting at Excel serial date `0`. -/
def c6testA : TestData :=
  { dfdata := [c6rowA1, c6rowA2], ir_pct_col := none, start_datetime := some 0,
    step_table := [], step_table_made := false,
    dfsummary := some (instrument_summary [c6rowA2]), dfsummary_made := true,
    mass := 1, no_cycles := 5, merged := false }

/-- C6 fixture: dataset B, starting `600` seconds (= `600/86400` Excel
serial days) after dataset A. -/
def c6testB : TestData :=
  { dfdata := [c6rowB1], ir_pct_col := none,
    start_datetime := some (600 / 86400),
    step_table := [], step_table_made := false,
    dfsummary := some (instrument_summary [c6rowB1]), dfsummary_made := true,
    mass := 1, no_cycles := 1, merged := false }

/-- C10 fixture: a step table holding a single `charge` step in cycle 1. -/
def c10row : StepRow :=
  { cycle := 1, step := 3, values := none, ir_pct := none,
    type := some "charge", info := none }

/-- C9 fixture: a one-row raw table. -/
def c9row : RawRow :=
  { zeroRow with
    data_point := 1, cycle_index := 1, step_index := 1, test_time := 10,
    voltage := 3, internal_resistance := 5 }

/-- C9 fixture: a summary configuration with `find_end_voltage` requested
and the source's default `force_step_table_creation = True`. -/
def c9cfg : SummaryConfig :=
  { find_ocv := false, find_ir := false, find_end_voltage := true,
    convert_date := false, use_arbin_stat_file := true,
    ensure_step_table := false, force_step_table_creation := true,
    cycle_mode_anode := true }

/-- C9 fixture: a dataset whose step table has *not* been built yet. -/
def c9test : TestData :=
  { dfdata := [c9row], ir_pct_col := none, start_datetime := some 0,
    step_table := [], step_table_made := false,
    dfsummary := some (instrument_summary [c9row]), dfsummary_made := true,
    mass := 1, no_cycles := 1, merged := false }

/-- C9 fixture: the same dataset with the step table already built. -/
def c9testPre : TestData :=
  { dfdata := [c9row], ir_pct_col := some [none], start_datetime := some 0,
    step_table := step_table_rows [c9row], step_table_made := true,
    dfsummary := some (instrument_summary [c9row]), dfsummary_made := true,
    mass := 1, no_cycles := 1, merged := false }

/-- Fidelity fixture: first row of a discharge step starting at zero
discharge capacity, under constant `-1 A` current. -/
def dz0row1 : RawRow :=
  { zeroRow with
    data_point := 1, step_time := 0, cycle_index := 1, step_index := 2,
    current := -1, voltage := 4 }

/-- Fidelity fixture: second row — discharge capacity risen from `0.0` to
`0.5 Ah`, voltage fallen slightly (`-0.25 %`). -/
def dz0row2 : RawRow :=
  { zeroRow with
    data_point := 2, step_time := 10, cycle_index := 1, step_index := 2,
    current := -1, voltage := 399 / 100, discharge_capacity := 1 / 2 }

end Cellpy

namespace Cellpy

/-! ## Theorems -/

attribute [local semireducible] Rat.add Rat.sub Rat.mul Rat.inv

/-- **C1.**  The claim states that `pct_change` returns
`(x1 - x0) * 100 / x0` whenever `x0 ≠ 0`, returns a guarded value (`0` or
`x1 - x0`) whenever `x0 = 0`, and never produces a raw division-by-zero
result.  The code tests `x1 == 0.0` instead of the denominator `x0`: at
`(x0, x1) = (2, 0)` it returns `0` instead of the documented `-100`, and
at `(x0, x1) = (0, 5)` the unguarded branch divides by `x0 = 0`, yielding
`+inf` (numpy float semantics) rather than the claimed `0`
(`default_zero = True`) or `x1 - x0 = 5` (`default_zero = False`) — the
guard's own "division by zero escaped" message notwithstanding. -/
theorem C1_pct_change_guards_wrong_variable :
    percentage_change 2 0 true = .fin 0 ∧
    percentage_change 2 0 true ≠ .fin (-100) ∧
    percentage_change 0 5 true = .posInf ∧
    percentage_change 0 5 true ≠ .fin 0 ∧
    percentage_change 0 5 false = .posInf ∧
    percentage_change 0 5 false ≠ .fin 5 := by
  refine ⟨by decide, by decide, by decide, by decide, by decide, by decide⟩

/-- The percentage change from a value to itself is the finite `0`
(either the guard fires with a zero difference, or the division gives
`0 * 100 / x`). -/
theorem percentage_change_self (x : ℚ) (dz : Bool) :
    percentage_change x x dz = .fin 0 := by
  unfold percentage_change
  by_cases hx : x = 0
  · subst hx
    simp
  · simp [hx]

/-- **C2 (counterexample).**  For the concrete single-row step window
`[c2row]`, the elapsed step time `t_delta` is `0` and every per-signal rate
is the float division `0.0 / 0.0`, i.e. `NaN` — the raw division-by-zero
outcome, not a single-sample fallback value — so the claim fails on this
input. -/
theorem C2_counterexample :
    ((extract_step_values [c2row]).map StepValues.t_delta) = some 0 ∧
    ((extract_step_values [c2row]).map StepValues.I_rate) = some FloatVal.nan ∧
    ((extract_step_values [c2row]).map StepValues.V_rate) = some FloatVal.nan ∧
    ((extract_step_values [c2row]).map StepValues.C_rate) = some FloatVal.nan ∧
    ((extract_step_values [c2row]).map StepValues.D_rate) = some FloatVal.nan := by
  refine ⟨by decide, by decide, by decide, by decide, by decide⟩

/-- **C2 (amended).**  For every single-row step window, `t_delta = 0` and
all four rate columns are computed as `delta / 0` with `delta = 0` — the
raw division-by-zero result `NaN` under the source's numpy float
semantics, not a single-sample fallback value. -/
theorem C2_single_row_rates_divide_by_zero (r : RawRow) :
    ((extract_step_values [r]).map StepValues.t_delta) = some 0 ∧
    ((extract_step_values [r]).map StepValues.I_rate) = some FloatVal.nan ∧
    ((extract_step_values [r]).map StepValues.V_rate) = some FloatVal.nan ∧
    ((extract_step_values [r]).map StepValues.C_rate) = some FloatVal.nan ∧
    ((extract_step_values [r]).map StepValues.D_rate) = some FloatVal.nan := by
  simp [extract_step_values, percentage_change_self, floatDiv]

/-- **C7.**  The claim states that merging two datasets with built step
tables concatenates them after re-basing `cycle`, and that a missing step
table on either side clears the merged `step_table_built` flag.  The code
(line 1671) instead reads the non-existent column `"cycle"` from the *raw*
table, raising `KeyError` whenever both step tables are built, and it never
stores the locally computed `step_table_made` value: the merged dataset
keeps `t1`'s flag.  Both failures are exhibited on concrete datasets. -/
theorem C7_step_table_merge_bug :
    (appendTests true true
      { dfdata := [{ zeroRow with
        data_point := 1, cycle_index := 1, step_index := 1 }],
        ir_pct_col := none, start_datetime := some 0,
        step_table := [], step_table_made := true,
        dfsummary := some (instrument_summary [{ zeroRow with
        data_point := 1, cycle_index := 1 }]),
        dfsummary_made := true, mass := 1, no_cycles := 1, merged := false }
      { dfdata := [{ zeroRow with
        data_point := 1, cycle_index := 1, step_index := 1 }],
        ir_pct_col := none, start_datetime := some 1,
        step_table := [], step_table_made := true,
        dfsummary := some (instrument_summary [{ zeroRow with
        data_point := 1, cycle_index := 1 }]),
        dfsummary_made := true, mass := 1, no_cycles := 1, merged := false }) = none ∧
    ((appendTests true true
      { dfdata := [{ zeroRow with
        data_point := 1, cycle_index := 1, step_index := 1 }],
        ir_pct_col := none, start_datetime := some 0,
        step_table := [], step_table_made := true,
        dfsummary := some (instrument_summary [{ zeroRow with
        data_point := 1, cycle_index := 1 }]),
        dfsummary_made := true, mass := 1, no_cycles := 1, merged := false }
      { dfdata := [{ zeroRow with
        data_point := 1, cycle_index := 1, step_index := 1 }],
        ir_pct_col := none, start_datetime := some 1,
        step_table := [], step_table_made := false,
        dfsummary := some (instrument_summary [{ zeroRow with
        data_point := 1, cycle_index := 1 }]),
        dfsummary_made := true, mass := 1, no_cycles := 1, merged := false }).map
        TestData.step_table_made) = some true := by
  refine ⟨by decide, by decide⟩

/-- **C8 (counterexample).**  Building the step table is not
side-effect-free on the raw table: on a concrete dataset whose raw table
does not carry the `IR_pct_change` column, the call adds it in place
(line 2023), so the raw table does not have the same columns afterwards. -/
theorem C8_counterexample :
    (create_step_table_state
      { dfdata := [{ zeroRow with
        data_point := 1, cycle_index := 1, step_index := 1, internal_resistance := 5 },
       { zeroRow with
        data_point := 2, cycle_index := 1, step_index := 1, internal_resistance := 10 }],
        ir_pct_col := none, start_datetime := some 0, step_table := [],
        step_table_made := false, dfsummary := none, dfsummary_made := false,
        mass := 1, no_cycles := 1, merged := false }).ir_pct_col = some [none, some 1] ∧
    ({ dfdata := [{ zeroRow with
        data_point := 1, cycle_index := 1, step_index := 1, internal_resistance := 5 },
                  { zeroRow with
        data_point := 2, cycle_index := 1, step_index := 1, internal_resistance := 10 }],
       ir_pct_col := none, start_datetime := some 0, step_table := [],
       step_table_made := false, dfsummary := none, dfsummary_made := false,
       mass := 1, no_cycles := 1, merged := false } : TestData).ir_pct_col = none := by
  refine ⟨by decide, by decide⟩

/-- **C8 (amended).**  `create_step_table` adds the derived
`IR_pct_change` column to the raw table in place; every pre-existing raw
column and value is unchanged (the rows themselves are untouched), and the
dataset's other summary state is untouched as well. -/
theorem C8_raw_rows_preserved (t : TestData) :
    (create_step_table_state t).dfdata = t.dfdata ∧
    (create_step_table_state t).ir_pct_col =
      some (pct_change_series (t.dfdata.map RawRow.internal_resistance)) ∧
    (create_step_table_state t).dfsummary = t.dfsummary := by
  refine ⟨rfl, rfl, rfl⟩

/-- **C3 (counterexample).**  A concrete two-row step window whose deltas
satisfy both the discharge rule (rule 2) and the `cv_discharge` rule
(rule 3): the spec's first-match reading assigns `discharge`, but the
overwriting assignments of `create_step_table` leave `cv_discharge` — the
earliest matching rule does *not* determine the type. -/
theorem C3_counterexample :
    ((extract_step_values [c3row1, c3row2]).map fun v =>
      (classify_step v, spec_first_match_type v,
       mask_discharge_changed v && mask_current_negative v,
       mask_voltage_stable v && mask_current_negative v && mask_current_down v)) =
    some (some "cv_discharge", some "discharge", true, true) := by
  decide

/-- **C3 (amended).**  The classification assignments are applied in the
spec's order but each `df_steps.loc[mask, type] = t` overwrites earlier
assignments, so the assigned step type is that of the *latest* matching
rule in the order OCV (1), discharge/charge (2), constant-voltage variants
(3), no-change `ir` (4).  (A step satisfying both the OCV rule and the
all-deltas-zero rule cannot exist, since OCV requires a voltage delta
above the threshold and the no-change rule a zero voltage delta.) -/
theorem C3_last_match_wins (v : StepValues) :
    classify_step v = last_match_type v := by
  cases h1 : mask_no_current_hard v && mask_voltage_up v <;>
  cases h2 : mask_no_current_hard v && mask_voltage_down v <;>
  cases h3 : mask_discharge_changed v && mask_current_negative v <;>
  cases h4 : mask_charge_changed v && mask_current_positive v <;>
  cases h5 : mask_voltage_stable v && mask_current_negative v && mask_current_down v <;>
  cases h6 : mask_voltage_stable v && mask_current_positive v && mask_current_down v <;>
  cases h7 : mask_no_change v <;>
  simp [classify_step, last_match_type, classification_rules, h1, h2, h3, h4, h5, h6, h7]

/-- Every row produced by `create_step_table` has an unassigned `info`
cell, and its `type` cell is exactly what the mask assignments produce. -/
theorem step_table_rows_type_info (rows : List RawRow) (row : StepRow)
    (hmem : row ∈ step_table_rows rows) :
    row.info = none ∧ row.type = row.values.bind classify_step := by
  simp only [step_table_rows, List.mem_map] at hmem
  obtain ⟨p, _, rfl⟩ := hmem
  exact ⟨rfl, rfl⟩

/-- If none of the classification-rule conditions holds, the overwriting
assignments never touch the `type` cell. -/
theorem classify_step_eq_none_of_no_rule (v : StepValues)
    (h : no_rule_matches v = true) : classify_step v = none := by
  simp only [no_rule_matches, classification_rules, List.all_cons, List.all_nil,
    Bool.and_eq_true, Bool.not_eq_true'] at h
  obtain ⟨h1, h2, h3, h4, h5, h6, h7, -⟩ := h
  simp [classify_step, h1, h2, h3, h4, h5, h6, h7]

/-- Fidelity check for the infinite-delta semantics (the spec's own
discharge scenario): a step whose discharge capacity rises from `0.0`
under constant negative current has `D_delta = +inf` — which compares
above the capacity-change threshold and fires the discharge mask — and the
step is classified `discharge`, not left unmatched. -/
theorem discharge_from_zero_capacity_typed :
    ((extract_step_values [dz0row1, dz0row2]).map fun v =>
      (v.D_delta, mask_discharge_changed v, classify_step v)) =
    some (FloatVal.posInf, true, some "discharge") := by
  decide

/-- **C4 (amended).**  A step window whose computed deltas match none of
the classification rules keeps the `NaN` placeholder (`none`) in the
`type` column — not the value `not_known` — and the `info` column, which
`create_step_table` never assigns, is likewise missing (`none`, not the
empty string); no error is raised (classification is total). -/
theorem C4_unmatched_type_missing (rows : List RawRow) (i : ℕ)
    (h : i < (step_table_rows rows).length)
    (hno : (((step_table_rows rows).get ⟨i, h⟩).values.all no_rule_matches) = true) :
    ((step_table_rows rows).get ⟨i, h⟩).type = none ∧
    ((step_table_rows rows).get ⟨i, h⟩).info = none := by
  have hmem : (step_table_rows rows).get ⟨i, h⟩ ∈ step_table_rows rows :=
    List.get_mem _ _ _
  obtain ⟨hinfo, htype⟩ := step_table_rows_type_info rows _ hmem
  refine ⟨?_, hinfo⟩
  rw [htype]
  cases hv : ((step_table_rows rows).get ⟨i, h⟩).values with
  | none => rfl
  | some sv =>
    rw [hv] at hno
    simp only [Option.all_some] at hno
    simp [classify_step_eq_none_of_no_rule sv hno]

/-- **C4 (witness).** -/
theorem C4_witness :
    ((step_table_rows c4rows).get ⟨0, by decide⟩).type = none ∧
    ((step_table_rows c4rows).get ⟨0, by decide⟩).info = none :=
  C4_unmatched_type_missing c4rows 0 (by decide) (by decide)

/-- **C4 (counterexample).**  For the concrete raw table `c4rows` (a single
step matching no classification rule), the produced step table's row has
`type = none` (the `NaN` placeholder) and `info = none` — not
`not_known` with an empty info string as the claim states. -/
theorem C4_counterexample :
    ((step_table_rows c4rows).map (fun r => (r.type, r.info))) = [(none, none)] ∧
    ((step_table_rows c4rows).map (fun r => r.values.all no_rule_matches)) = [true] := by
  refine ⟨by decide, by decide⟩


/-- Membership in `uniqueAux`: the values of the input not already seen. -/
theorem mem_uniqueAux {α : Type} [DecidableEq α] (seen : List α) (l : List α)
    (a : α) : a ∈ uniqueAux seen l ↔ a ∈ l ∧ a ∉ seen := by
  induction l generalizing seen with
  | nil => simp [uniqueAux]
  | cons x xs ih =>
    by_cases hx : x ∈ seen
    · rw [uniqueAux, if_pos hx, ih]
      constructor
      · rintro ⟨hmem, hns⟩
        exact ⟨List.mem_cons_of_mem x hmem, hns⟩
      · rintro ⟨hmem, hns⟩
        rcases List.mem_cons.mp hmem with rfl | hmem
        · exact absurd hx hns
        · exact ⟨hmem, hns⟩
    · rw [uniqueAux, if_neg hx]
      by_cases hax : a = x
      · subst hax
        simp [List.mem_cons, hx]
      · simp only [List.mem_cons, hax, false_or]
        rw [ih]
        simp [List.mem_cons, hax]

/-- `uniqueAux` never repeats a value. -/
theorem nodup_uniqueAux {α : Type} [DecidableEq α] (seen : List α)
    (l : List α) : (uniqueAux seen l).Nodup := by
  induction l generalizing seen with
  | nil => simp [uniqueAux]
  | cons x xs ih =>
    by_cases hx : x ∈ seen
    · simpa [uniqueAux, hx] using ih seen
    · rw [uniqueAux, if_neg hx]
      rw [List.nodup_cons]
      refine ⟨fun hmem => ?_, ih (x :: seen)⟩
      rw [mem_uniqueAux] at hmem
      exact hmem.2 (List.mem_cons_self x seen)

/-- `Series.unique()` keeps exactly the values of the series. -/
theorem mem_uniqueKeep {α : Type} [DecidableEq α] (l : List α) (a : α) :
    a ∈ uniqueKeep l ↔ a ∈ l := by
  simp [uniqueKeep, mem_uniqueAux]

/-- `Series.unique()` has no duplicates. -/
theorem nodup_uniqueKeep {α : Type} [DecidableEq α] (l : List α) :
    (uniqueKeep l).Nodup := nodup_uniqueAux [] l

/-- The `(cycle, step)` pairs enumerated by the segmenter are exactly the
pairs occurring in the raw table. -/
theorem mem_step_pairs (rows : List RawRow) (c s : ℚ) :
    (c, s) ∈ step_pairs rows ↔
      ∃ r ∈ rows, r.cycle_index = c ∧ r.step_index = s := by
  simp only [step_pairs, List.mem_flatMap, List.mem_map, mem_uniqueKeep,
    List.mem_filter, decide_eq_true_eq, Prod.mk.injEq]
  constructor
  · rintro ⟨c', hc', s', hs', rfl, rfl⟩
    obtain ⟨r, ⟨hrmem, hrc⟩, hrs⟩ := hs'
    exact ⟨r, hrmem, hrc, hrs⟩
  · rintro ⟨r, hrmem, rfl, rfl⟩
    exact ⟨r.cycle_index, ⟨r, hrmem, rfl⟩, r.step_index,
      ⟨r, ⟨hrmem, rfl⟩, rfl⟩, rfl, rfl⟩

/-- The segmenter enumerates each `(cycle, step)` pair at most once. -/
theorem nodup_step_pairs (rows : List RawRow) : (step_pairs rows).Nodup := by
  rw [step_pairs, List.nodup_flatMap]
  constructor
  · intro c _
    refine List.Nodup.map ?_ (nodup_uniqueKeep _)
    intro s1 s2 hs
    simpa using hs
  · rw [List.pairwise_iff_forall_sublist]
    intro c1 c2 hsub
    have hne : c1 ≠ c2 := by
      intro h
      subst h
      have hnd : ([c1, c1] : List ℚ).Nodup := hsub.nodup (nodup_uniqueKeep _)
      simp at hnd
    intro p hp1 hp2
    simp only [Function.onFun, List.mem_map] at hp1 hp2
    obtain ⟨s1, _, rfl⟩ := hp1
    obtain ⟨s2, _, h⟩ := hp2
    exact hne (congrArg Prod.fst h).symm

/-- **C5.**  For every raw table, the step table of `create_step_table`
contains exactly one row for each distinct `(cycle_index, step_index)` pair
of the raw table: the set of its `(cycle, step)` keys equals the set of
pairs occurring in the raw table, and the keys are pairwise distinct. -/
theorem C5_step_table_pairs_exact (rows : List RawRow) :
    ((step_table_rows rows).map (fun r => (r.cycle, r.step))).toFinset =
      (rows.map (fun r => (r.cycle_index, r.step_index))).toFinset ∧
    ((step_table_rows rows).map (fun r => (r.cycle, r.step))).Nodup := by
  have hmap : (step_table_rows rows).map (fun r => (r.cycle, r.step)) =
      step_pairs rows := by
    simp [step_table_rows, List.map_map, Function.comp_def]
  rw [hmap]
  refine ⟨?_, nodup_step_pairs rows⟩
  ext p
  obtain ⟨c, s⟩ := p
  simp only [List.mem_toFinset, List.mem_map, mem_step_pairs]
  constructor
  · rintro ⟨r, hr, hc, hs⟩
    exact ⟨r, hr, by rw [hc, hs]⟩
  · rintro ⟨r, hr, h⟩
    exact ⟨r, hr, (congrArg Prod.fst h), (congrArg Prod.snd h)⟩

/-- **C6.**  Merging two datasets concatenates `a`'s raw rows with `b`'s
raw rows in their original order, where each row of `b` has `data_point`
increased by `max(a.data_point)`, `cycle_index` increased by
`max(a.cycle_index)`, and `test_time` increased by the difference in
seconds between the two start datetimes (all other columns unchanged). -/
theorem C6_merge_rebases (t1 t2 m : TestData) (x1 x2 dp cy : ℚ)
    (h1 : t1.start_datetime = some x1) (h2 : t2.start_datetime = some x2)
    (hdp : (t1.dfdata.map RawRow.data_point).max? = some dp)
    (hcy : (t1.dfdata.map RawRow.cycle_index).max? = some cy)
    (h : appendTests true true t1 t2 = some m) :
    m.dfdata = t1.dfdata ++ t2.dfdata.map (fun r =>
      { r with
        data_point := r.data_point + dp
        cycle_index := r.cycle_index + cy
        test_time := r.test_time + (x2 - x1) * 86400 }) := by
  simp only [appendTests, h1, h2, hdp, hcy, xldate_diff_seconds] at h
  split at h
  · rename_i heq
    injection h with h
    subst h
    rfl
  · exact Option.noConfusion h

/-- **C6 (witness).**  The spec's merge-offset scenario: dataset A ends at
`data_point = 100`, `cycle_index = 5`; dataset B starts `600` seconds later
at `data_point = 1`, `cycle_index = 1`; after the merge, B's first row has
`data_point = 101`, `cycle_index = 6` and `test_time` increased by
`600`. -/
theorem C6_witness :
    ((appendTests true true c6testA c6testB).map TestData.dfdata) =
      some [c6rowA1, c6rowA2,
        { c6rowB1 with data_point := 101, cycle_index := 6, test_time := 600 }] := by
  cases hm : appendTests true true c6testA c6testB with
  | none => exact absurd hm (by decide)
  | some m =>
    have hd := C6_merge_rebases c6testA c6testB m 0 (600 / 86400) 100 5
      rfl rfl (by decide) (by decide) hm
    rw [show Option.map TestData.dfdata (some m) = some m.dfdata from rfl, hd]
    decide

/-- **C10.**  In dict mode, a queried cycle with no step of the requested
type in the step table is mapped to the sentinel list `[0]`, and every
cycle key of the returned dict carries a non-empty list. -/
theorem C10_missing_step_sentinel (st : List StepRow)
    (steptypes : List String) (cycles : List ℚ) (c : ℚ) (hc : c ∈ cycles)
    (hnone : ∀ row ∈ st, row.cycle = c → ∀ s ∈ steptypes, row.type ≠ some s) :
    (get_step_numbers_dict st steptypes cycles).lookup c = some [0] ∧
    ∀ p ∈ get_step_numbers_dict st steptypes cycles, p.2 ≠ [] := by
  have hempty : (steptypes.flatMap fun s =>
      (st.filter (fun row => decide (row.type = some s) && decide (row.cycle = c))).map
        StepRow.step) = [] := by
    rw [List.flatMap_eq_nil_iff]
    intro s hs
    rw [List.map_eq_nil_iff, List.filter_eq_nil_iff]
    intro row hrow
    simp only [Bool.and_eq_true, decide_eq_true_eq, not_and]
    intro htype hcyc
    exact hnone row hrow hcyc s hs htype
  constructor
  · induction cycles with
    | nil => exact absurd hc (List.not_mem_nil c)
    | cons c0 cs ih =>
      simp only [get_step_numbers_dict, List.map_cons, List.lookup_cons]
      by_cases hcc : c0 = c
      · subst hcc
        simp [hempty]
      · have hbeq : (c == c0) = false := by
          simp only [beq_eq_false_iff_ne, ne_eq]
          exact fun hh => hcc hh.symm
        rw [hbeq]
        have hc' : c ∈ cs := by
          rcases List.mem_cons.mp hc with h | h
          · exact absurd h.symm hcc
          · exact h
        simpa [get_step_numbers_dict] using ih hc'
  · intro p hp
    simp only [get_step_numbers_dict, List.mem_map] at hp
    obtain ⟨c0, _, rfl⟩ := hp
    split <;> simp_all

/-- **C10 (witness).**  For a step table with only a `charge` step in cycle
1, the query for `discharge` over cycles `[1, 2]` maps cycle 2 (which has
no step at all) to `[0]`, and every entry is non-empty. -/
theorem C10_witness :
    (get_step_numbers_dict [c10row] ["discharge"] [1, 2]).lookup 2 = some [0] ∧
    ∀ p ∈ get_step_numbers_dict [c10row] ["discharge"] [1, 2], p.2 ≠ [] :=
  C10_missing_step_sentinel [c10row] ["discharge"] [1, 2] 2 (by decide)
    (by decide)

/-- The summary produced by `build_dfsummary` carries exactly the selected
rows and the carried `IR_pct_change` column. -/
theorem build_dfsummary_rows (cfg : SummaryConfig) (mass : ℚ)
    (dfdata : List RawRow) (stepTable : List StepRow) (selRows : List RawRow)
    (carried : Option (List (Option ℚ))) (s : DfSummary)
    (h : build_dfsummary cfg mass dfdata stepTable selRows carried = some s) :
    s.rows = selRows ∧ s.ir_pct = carried := by
  rw [build_dfsummary] at h
  split at h
  · injection h with h
    subst h
    exact ⟨rfl, rfl⟩
  · exact Option.noConfusion h

/-- On a raw table with pairwise-distinct data points, membership of a
row's data point in the data points of a filtered sub-table is equivalent
to the filter predicate itself. -/
theorem mask_agree_of_nodup (l : List RawRow) (p : RawRow → Bool)
    (hnd : (l.map RawRow.data_point).Nodup) (r : RawRow) (hr : r ∈ l) :
    decide (r.data_point ∈ (l.filter p).map RawRow.data_point) = p r := by
  by_cases hp : p r = true
  · rw [hp]
    simp only [decide_eq_true_eq]
    exact List.mem_map_of_mem _ (List.mem_filter.mpr ⟨hr, hp⟩)
  · have hp' : p r = false := by
      simpa using hp
    rw [hp']
    simp only [decide_eq_false_iff_not]
    intro hmem
    obtain ⟨r2, hr2mem, hdp⟩ := List.mem_map.mp hmem
    have hr2l : r2 ∈ l := (List.mem_filter.mp hr2mem).1
    have hrr : r2 = r := List.inj_on_of_nodup_map hnd hr2l hr hdp
    subst hrr
    rw [(List.mem_filter.mp hr2mem).2] at hp'
    exact Bool.noConfusion hp'

/-- Re-selecting the raw rows whose data point occurs among the selected
rows' data points selects the same rows again (the key stability fact
behind summary idempotence). -/
theorem filter_dp_stable (l : List RawRow) (p : RawRow → Bool)
    (hnd : (l.map RawRow.data_point).Nodup) :
    (l.filter fun r => decide (r.data_point ∈ (l.filter p).map RawRow.data_point)) =
      l.filter p :=
  List.filter_congr (fun r hr => mask_agree_of_nodup l p hnd r hr)

/-- The zip-with-column variant of `filter_dp_stable`, for the carried
`IR_pct_change` column. -/
theorem zip_filter_dp_stable (l : List RawRow) (col : List (Option ℚ))
    (p : RawRow → Bool) (hnd : (l.map RawRow.data_point).Nodup) :
    ((l.zip col).filter fun rp =>
        decide (rp.1.data_point ∈ (l.filter p).map RawRow.data_point)) =
      (l.zip col).filter fun rp => p rp.1 := by
  apply List.filter_congr
  intro rp hrp
  obtain ⟨a, b⟩ := rp
  exact mask_agree_of_nodup l p hnd a (List.of_mem_zip hrp).1

/-- Evaluation of `_make_summary` on a dataset whose step table is already
built: no step-table creation fires, and the result is the pure summary of
the selected rows. -/
theorem make_summary_eval (cfg : SummaryConfig) (mass_in : Option ℚ)
    (t : TestData) (hmade : t.step_table_made = true) :
    make_summary_state cfg mass_in t =
      (match summary_mask cfg t with
       | none => none
       | some mask =>
         (build_dfsummary cfg
           (match mass_in with
            | none => t.mass
            | some m => if m = 0 then t.mass else m)
           t.dfdata t.step_table (t.dfdata.filter mask)
           (t.ir_pct_col.map fun col =>
             ((t.dfdata.zip col).filter fun rp => mask rp.1).map Prod.snd)).map
           fun s => { t with dfsummary := some s, dfsummary_made := true }) := by
  rw [make_summary_state.eq_def, hmade]
  simp only [Bool.not_true, Bool.and_false, Bool.false_eq_true, if_false]
  cases hsm : summary_mask cfg t with
  | none => rfl
  | some mask =>
    simp only [hmade, Bool.not_true, Bool.and_false, Bool.false_eq_true,
      if_false]
    cases hb : build_dfsummary cfg
        (match mass_in with
         | none => t.mass
         | some m => if m = 0 then t.mass else m)
        t.dfdata t.step_table (t.dfdata.filter mask)
        (t.ir_pct_col.map fun col =>
          ((t.dfdata.zip col).filter fun rp => mask rp.1).map Prod.snd) with
    | none => rfl
    | some s => rfl

/-- **C9 (amended).**  Provided the step table is already built before the
first call (so that no step-table auto-creation mutates the raw table
mid-build) and the raw table's data points are pairwise distinct, building
the summary is idempotent on the whole dataset state: a second build
starting from the state left by the first reproduces that state — in
particular an identical summary table.  Without the precondition, a first
build that auto-creates the step table does so *after* its rows were
selected, adds the `IR_pct_change` column to the raw table, and the second
build's summary gains that extra column (see the counterexample). -/
theorem C9_idempotent_with_prebuilt_step_table (cfg : SummaryConfig)
    (mass_in : Option ℚ) (t t1 : TestData)
    (hnd : (t.dfdata.map RawRow.data_point).Nodup)
    (hmade : t.step_table_made = true)
    (h1 : make_summary_state cfg mass_in t = some t1) :
    make_summary_state cfg mass_in t1 = some t1 := by
  rw [make_summary_eval cfg mass_in t hmade] at h1
  cases hmask : summary_mask cfg t with
  | none =>
    rw [hmask] at h1
    exact Option.noConfusion h1
  | some mask =>
    rw [hmask] at h1
    simp only [] at h1
    rw [Option.map_eq_some'] at h1
    obtain ⟨s, hb, heq⟩ := h1
    obtain ⟨hrows, hirp⟩ := build_dfsummary_rows _ _ _ _ _ _ _ hb
    have hfld_data : t1.dfdata = t.dfdata := by rw [← heq]
    have hfld_ir : t1.ir_pct_col = t.ir_pct_col := by rw [← heq]
    have hfld_st : t1.step_table = t.step_table := by rw [← heq]
    have hfld_mass : t1.mass = t.mass := by rw [← heq]
    have hfld_made : t1.step_table_made = true := by rw [← heq]; exact hmade
    have hfld_sum : t1.dfsummary = some s := by rw [← heq]
    rw [make_summary_eval cfg mass_in t1 hfld_made]
    by_cases hu : cfg.use_arbin_stat_file
    · have hmask2 : summary_mask cfg t1 =
          some (fun r => decide (r.data_point ∈ s.rows.map RawRow.data_point)) := by
        rw [summary_mask, if_pos hu, hfld_sum]
      rw [hmask2]
      simp only []
      have hsel2 : (t1.dfdata.filter fun r =>
          decide (r.data_point ∈ s.rows.map RawRow.data_point)) =
          t.dfdata.filter mask := by
        rw [hfld_data, hrows]
        exact filter_dp_stable t.dfdata mask hnd
      have hcar2 : (t1.ir_pct_col.map fun col =>
          ((t1.dfdata.zip col).filter fun rp =>
            decide (rp.1.data_point ∈ s.rows.map RawRow.data_point)).map Prod.snd) =
          (t.ir_pct_col.map fun col =>
            ((t.dfdata.zip col).filter fun rp => mask rp.1).map Prod.snd) := by
        rw [hfld_ir, hfld_data, hrows]
        congr 1
        funext col
        rw [zip_filter_dp_stable t.dfdata col mask hnd]
      rw [hsel2, hcar2, hfld_data, hfld_st, hfld_mass, hb, ← heq]
      rfl
    · have hmask2 : summary_mask cfg t1 = some mask := by
        rw [summary_mask, if_neg hu, hfld_data]
        rw [summary_mask, if_neg hu] at hmask
        exact hmask
      rw [hmask2]
      simp only []
      rw [hfld_ir, hfld_data, hfld_st, hfld_mass, hb, ← heq]
      rfl

/-- **C9 (witness).** -/
theorem C9_witness :
    ((make_summary_state c9cfg none c9testPre).bind fun u1 =>
      make_summary_state c9cfg none u1) =
      make_summary_state c9cfg none c9testPre := by
  cases h1 : make_summary_state c9cfg none c9testPre with
  | none => exact absurd h1 (by decide)
  | some u1 =>
    rw [show (some u1).bind (fun u => make_summary_state c9cfg none u) =
      make_summary_state c9cfg none u1 from rfl]
    exact C9_idempotent_with_prebuilt_step_table c9cfg none c9testPre u1
      (by decide) (by decide) h1

/-- **C9 (counterexample).**  For the concrete dataset `c9test` (step
table not yet built) with `find_end_voltage` requested and the default
`force_step_table_creation`, the first build force-creates the step table
*after* selecting its rows — adding the `IR_pct_change` column to the raw
table — so the second build's summary carries that extra column and the
two summary tables differ. -/
theorem C9_counterexample :
    ((make_summary_state c9cfg none c9test).bind fun u1 =>
      (make_summary_state c9cfg none u1).map fun u2 =>
        decide (u2.dfsummary = u1.dfsummary)) = some false := by
  decide

end Cellpy
